import Mathlib

/-! Servo control loop (`servo_control.c`).

A shallow embedding of `packages/servo_control/src/servo_control.c`.

* C `int` values are mathematical integers; every arithmetic result is passed
  through `wrap32`, the two's-complement reduction to 32 bits, so that an
  overflow is visible in the model.
* The system calls made inside `write_to_file` and `read_from_file` are inputs
  of the model (`WriteSys`, `ReadSys`): what `open`, `write` and `read`
  returned.
* The effect of the program on the devices is a list of `Event`s, one per call
  of `write_to_file`.  Console output (`printf`, `fprintf`) and the delay
  `usleep(1000)` change neither the program variables nor the devices and are
  left out.
* The endless `while (1)` loop is run over a finite list of ticks; each tick
  carries the outcome of the system calls of one iteration.
-/

namespace ServoControl

/-! ## Paths -/

def GPIO_EXPORT : String := "/sys/class/gpio/export"
def GPIO_UNEXPORT : String := "/sys/class/gpio/unexport"
def GPIO23_DIR : String := "/sys/class/gpio/gpio23/direction"
def GPIO23_VAL : String := "/sys/class/gpio/gpio23/value"
def GPIO24_DIR : String := "/sys/class/gpio/gpio24/direction"
def GPIO24_VAL : String := "/sys/class/gpio/gpio24/value"

def PWM_EXPORT : String := "/sys/class/pwm/pwmchip0/export"
def PWM_PERIOD : String := "/sys/class/pwm/pwmchip0/pwm0/period"
def PWM_DUTY : String := "/sys/class/pwm/pwmchip0/pwm0/duty_cycle"
def PWM_ENABLE : String := "/sys/class/pwm/pwmchip0/pwm0/enable"

/-! ## Machine integers -/

/-- Two's-complement reduction of an integer to the range of a 32-bit `int`. -/
def wrap32 (x : Int) : Int := (x + 2147483648) % 4294967296 - 2147483648

/-! ## System calls and file helpers -/

/-- What the system calls of one `write_to_file` call did: `open` failed, or
`open` succeeded and `write` returned `n`. -/
inductive WriteSys where
  | openFail : WriteSys
  | wrote (n : Int) : WriteSys
  deriving DecidableEq, Repr

/-- What the system calls of one `read_from_file` call did: `open` failed, or
`open` succeeded, `read` returned `n` and left the byte `c` in `buf[0]`. -/
inductive ReadSys where
  | openFail : ReadSys
  | got (n : Int) (c : Nat) : ReadSys
  deriving DecidableEq, Repr

/-- The C `strlen` of a string: its number of bytes. -/
def strlen (s : String) : Int := (s.utf8ByteSize : Int)

/-- The function `write_to_file`: `-1` when `open` fails or `write` does not
write the whole value, `0` otherwise. -/
def write_to_file (_path value : String) (w : WriteSys) : Int :=
  match w with
  | WriteSys.openFail => -1
  | WriteSys.wrote n => if n < 0 ∨ n ≠ strlen value then -1 else 0

/-- The function `read_from_file`: `-1` when `open` fails, when `read` does not
return exactly one byte or when the byte is neither `'0'` (48) nor `'1'` (49);
otherwise the digit read. -/
def read_from_file (_path : String) (r : ReadSys) : Int :=
  match r with
  | ReadSys.openFail => -1
  | ReadSys.got n c => if n ≠ 1 ∨ (c ≠ 48 ∧ c ≠ 49) then -1 else (c : Int) - 48

/-- One call of `write_to_file`: the path, the value and the result code. -/
structure Event where
  path : String
  value : String
  result : Int
  deriving DecidableEq, Repr

/-- One call `write_to_file(path, value)` with its system calls `w`, as an event. -/
def writeEvent (path value : String) (w : WriteSys) : Event :=
  { path := path, value := value, result := write_to_file path value w }

/-! ## `cleanup` -/

/-- System calls of the four writes of `cleanup`, in program order. -/
structure CleanupSys where
  w1 : WriteSys
  w2 : WriteSys
  w3 : WriteSys
  w4 : WriteSys

/-- The function `cleanup`: four writes whose results are ignored, then
`exit(0)`.  The result is the list of writes and the exit status. -/
def cleanup (io : CleanupSys) : List Event × Int :=
  ([ writeEvent PWM_ENABLE "0" io.w1,
     writeEvent PWM_EXPORT "0" io.w2,
     writeEvent GPIO_UNEXPORT "23" io.w3,
     writeEvent GPIO_UNEXPORT "24" io.w4 ], 0)

/-! ## The loop of `main` -/

/-- The two variables `main` carries from one iteration to the next. -/
structure LoopState where
  position : Int
  prev_clk : Int
  deriving DecidableEq, Repr

/-- System calls of one loop iteration: the read of the clock line, the read
of the data line, and the write of the duty cycle (used only when the
iteration reaches that write). -/
structure TickSys where
  clk : ReadSys
  dt : ReadSys
  duty : WriteSys
  deriving DecidableEq, Repr

/-- The test `clk != prev_clk && clk == 1` of line 94. -/
def rising_edge (prev_clk clk : Int) : Bool := clk != prev_clk && clk == 1

/-- Lines 95 to 99: the position after a recognised edge with data sample `dt`. -/
def turn (dt position : Int) : Int :=
  if dt = 0 then
    if position < 180 then wrap32 (position + 5) else position
  else
    if position > 0 then wrap32 (position - 5) else position

/-- Lines 94 to 99 as a function of the two clock samples, the data sample and
the position: the position after one iteration with two successful reads. -/
def step (prev_clk clk dt position : Int) : Int :=
  if rising_edge prev_clk clk then turn dt position else position

/-- Line 101: `500000 + (position * 2000000 / 180)` in 32-bit arithmetic with
the truncating division of C. -/
def duty_formula (position : Int) : Int :=
  wrap32 (500000 + wrap32 ((wrap32 (position * 2000000)).tdiv 180))

/-- Lines 101 to 103: the formula followed by the two clamps. -/
def duty_cycle (position : Int) : Int :=
  let d := duty_formula position
  let d := if d < 500000 then 500000 else d
  if d > 2500000 then 2500000 else d

/-- The call `sprintf(duty_str, "%d", duty_cycle)`. -/
def duty_str (duty : Int) : String := toString duty

/-- One iteration of the `while (1)` loop (lines 84 to 115): the state after
it and the writes it made. -/
def iteration (s : LoopState) (io : TickSys) : LoopState × List Event :=
  let clk := read_from_file GPIO23_VAL io.clk
  let dt := read_from_file GPIO24_VAL io.dt
  if clk < 0 ∨ dt < 0 then
    (s, [])
  else if rising_edge s.prev_clk clk then
    let position := turn dt s.position
    let duty := duty_cycle position
    ({ position := position, prev_clk := clk },
      [writeEvent PWM_DUTY (duty_str duty) io.duty])
  else
    ({ position := s.position, prev_clk := clk }, [])

/-- The loop run over a finite list of ticks: the final state and all writes. -/
def run (s : LoopState) : List TickSys → LoopState × List Event
  | [] => (s, [])
  | io :: rest =>
    let r := iteration s io
    let r2 := run r.1 rest
    (r2.1, r.2 ++ r2.2)

/-- The state after each tick of a finite list of ticks, in order. -/
def states (s : LoopState) : List TickSys → List LoopState
  | [] => []
  | io :: rest => (iteration s io).1 :: states (iteration s io).1 rest

/-! ## Start of `main` -/

/-- System calls of the seven start-up writes of `main`, in program order. -/
structure StartupSys where
  e23 : WriteSys
  e24 : WriteSys
  d23 : WriteSys
  d24 : WriteSys
  pexp : WriteSys
  pper : WriteSys
  pen : WriteSys

/-- Lines 63 to 77: the start-up writes, with the short-circuit of `||`.
The result is the writes made and `some 1` when `main` returns 1. -/
def startup (io : StartupSys) : List Event × Option Int :=
  let a := writeEvent GPIO_EXPORT "23" io.e23
  if a.result < 0 then ([a], some 1) else
  let b := writeEvent GPIO_EXPORT "24" io.e24
  if b.result < 0 then ([a, b], some 1) else
  let c := writeEvent GPIO23_DIR "in" io.d23
  if c.result < 0 then ([a, b, c], some 1) else
  let d := writeEvent GPIO24_DIR "in" io.d24
  if d.result < 0 then ([a, b, c, d], some 1) else
  let e := writeEvent PWM_EXPORT "0" io.pexp
  if e.result < 0 then ([a, b, c, d, e], some 1) else
  let f := writeEvent PWM_PERIOD "20000000" io.pper
  if f.result < 0 then ([a, b, c, d, e, f], some 1) else
  let g := writeEvent PWM_ENABLE "1" io.pen
  if g.result < 0 then ([a, b, c, d, e, f, g], some 1) else
  ([a, b, c, d, e, f, g], none)

/-- Lines 79 to 81: the loop state `main` starts with, from the initial read of
the clock line. -/
def initial_state (r0 : ReadSys) : LoopState :=
  let prev_clk := read_from_file GPIO23_VAL r0
  { position := 0, prev_clk := if prev_clk < 0 then 0 else prev_clk }

/-- The function `main` over a finite list of ticks: the writes made and the
exit status when start-up fails, or the writes made and the loop state reached
when the loop is still running. -/
def main (su : StartupSys) (r0 : ReadSys) (ticks : List TickSys) :
    List Event × (Int ⊕ LoopState) :=
  match startup su with
  | (ev, some code) => (ev, Sum.inl code)
  | (ev, none) =>
    let r := run (initial_state r0) ticks
    (ev ++ r.2, Sum.inr r.1)

/-- The invariant of the loop: the position is a multiple of 5 in `[0, 180]`. -/
def Inv (s : LoopState) : Prop :=
  0 ≤ s.position ∧ s.position ≤ 180 ∧ s.position % 5 = 0

/-! ## Helper lemmas -/

theorem read_from_file_cases (path : String) (r : ReadSys) :
    read_from_file path r = -1 ∨ read_from_file path r = 0 ∨ read_from_file path r = 1 := by
  cases r with
  | openFail => simp [read_from_file]
  | got n c =>
    simp only [read_from_file]
    split
    · simp
    · omega

theorem wrap32_of_range (x : Int) (h1 : -2147483648 ≤ x) (h2 : x < 2147483648) :
    wrap32 x = x := by
  unfold wrap32; omega

/-- The position after an iteration with two successful reads is `step`. -/
theorem iteration_position (s : LoopState) (io : TickSys)
    (hc : 0 ≤ read_from_file GPIO23_VAL io.clk) (hd : 0 ≤ read_from_file GPIO24_VAL io.dt) :
    (iteration s io).1 =
      { position := step s.prev_clk (read_from_file GPIO23_VAL io.clk)
          (read_from_file GPIO24_VAL io.dt) s.position,
        prev_clk := read_from_file GPIO23_VAL io.clk } := by
  have h : ¬ (read_from_file GPIO23_VAL io.clk < 0 ∨ read_from_file GPIO24_VAL io.dt < 0) := by
    omega
  unfold iteration step
  simp only [h, if_false]
  split <;> rfl

/-- An iteration with a failed read changes nothing and writes nothing. -/
theorem iteration_failed (s : LoopState) (io : TickSys)
    (h : read_from_file GPIO23_VAL io.clk < 0 ∨ read_from_file GPIO24_VAL io.dt < 0) :
    iteration s io = (s, []) := by
  unfold iteration
  simp only [h, if_true]

theorem turn_inv (dt p : Int) (h0 : 0 ≤ p) (h1 : p ≤ 180) (h5 : p % 5 = 0) :
    0 ≤ turn dt p ∧ turn dt p ≤ 180 ∧ turn dt p % 5 = 0 := by
  unfold turn
  split
  · split
    · rw [wrap32_of_range (p + 5) (by omega) (by omega)]; omega
    · omega
  · split
    · rw [wrap32_of_range (p - 5) (by omega) (by omega)]; omega
    · omega

theorem step_inv (prev_clk clk dt p : Int) (h0 : 0 ≤ p) (h1 : p ≤ 180) (h5 : p % 5 = 0) :
    0 ≤ step prev_clk clk dt p ∧ step prev_clk clk dt p ≤ 180 ∧
      step prev_clk clk dt p % 5 = 0 := by
  unfold step
  split
  · exact turn_inv dt p h0 h1 h5
  · exact ⟨h0, h1, h5⟩

theorem iteration_inv (s : LoopState) (io : TickSys) (h : Inv s) : Inv (iteration s io).1 := by
  by_cases hr : read_from_file GPIO23_VAL io.clk < 0 ∨ read_from_file GPIO24_VAL io.dt < 0
  · rw [iteration_failed s io hr]; exact h
  · rw [iteration_position s io (by omega) (by omega)]
    exact step_inv _ _ _ _ h.1 h.2.1 h.2.2

theorem states_inv (ticks : List TickSys) :
    ∀ s : LoopState, Inv s → ∀ t ∈ states s ticks, Inv t := by
  induction ticks with
  | nil => intro s _ t ht; simp [states] at ht
  | cons io rest ih =>
    intro s hs t ht
    simp only [states, List.mem_cons] at ht
    rcases ht with ht | ht
    · rw [ht]; exact iteration_inv s io hs
    · exact ih _ (iteration_inv s io hs) t ht

/-- Without overflow and for a non-negative position, the C formula is the
formula over the integers with the floor division. -/
theorem duty_formula_of_nonneg (p : Int) (h0 : 0 ≤ p) (h1 : p ≤ 1073) :
    duty_formula p = 500000 + p * 2000000 / 180 := by
  unfold duty_formula
  rw [wrap32_of_range (p * 2000000) (by omega) (by omega),
    Int.tdiv_eq_ediv (by omega) (by decide),
    wrap32_of_range (p * 2000000 / 180) (by omega) (by omega),
    wrap32_of_range (500000 + p * 2000000 / 180) (by omega) (by omega)]

/-- Without overflow and for a negative position, the truncating division rounds
towards zero. -/
theorem duty_formula_of_neg (p : Int) (h0 : -1073 ≤ p) (h1 : p < 0) :
    duty_formula p = 500000 - (-p) * 2000000 / 180 := by
  unfold duty_formula
  have hneg : p * 2000000 = -((-p) * 2000000) := by ring
  rw [wrap32_of_range (p * 2000000) (by omega) (by omega), hneg, Int.neg_tdiv,
    Int.tdiv_eq_ediv (by omega) (by decide),
    wrap32_of_range (-((-p) * 2000000 / 180)) (by omega) (by omega),
    wrap32_of_range (500000 + -((-p) * 2000000 / 180)) (by omega) (by omega)]
  omega

theorem duty_cycle_of_nonneg (p : Int) (h0 : 0 ≤ p) (h1 : p ≤ 1073) :
    duty_cycle p =
      if 500000 + p * 2000000 / 180 > 2500000 then 2500000
      else 500000 + p * 2000000 / 180 := by
  unfold duty_cycle
  rw [duty_formula_of_nonneg p h0 h1]
  have h : ¬ (500000 + p * 2000000 / 180 < 500000) := by omega
  simp only [h, if_false]

theorem duty_cycle_of_neg (p : Int) (h0 : -1073 ≤ p) (h1 : p < 0) :
    duty_cycle p = 500000 := by
  unfold duty_cycle
  rw [duty_formula_of_neg p h0 h1]
  have hd : 500000 - (-p) * 2000000 / 180 ≤ 500000 := by omega
  generalize 500000 - (-p) * 2000000 / 180 = d at hd ⊢
  dsimp only
  split_ifs <;> omega

/-! ## Claims -/

/-- C1: from the initial state of `main` (position 0, whatever value `prev_clk`
was seeded with, in particular 0 or 1), after every tick of any finite sequence
of ticks, with failed or successful reads, the position lies in `[0, 180]`. -/
theorem position_stays_in_range (prev_clk : Int) (ticks : List TickSys) :
    ∀ t ∈ states { position := 0, prev_clk := prev_clk } ticks,
      0 ≤ t.position ∧ t.position ≤ 180 := by
  intro t ht
  have h := states_inv ticks { position := 0, prev_clk := prev_clk } (by simp [Inv]) t ht
  exact ⟨h.1, h.2.1⟩

theorem position_stays_in_range_witness :
    ({ position := 5, prev_clk := 1 } : LoopState) ∈
        states { position := 0, prev_clk := 0 }
          [{ clk := ReadSys.got 1 49, dt := ReadSys.got 1 48, duty := WriteSys.wrote 6 }] ∧
      0 ≤ ({ position := 5, prev_clk := 1 } : LoopState).position ∧
      ({ position := 5, prev_clk := 1 } : LoopState).position ≤ 180 :=
  ⟨by decide,
   position_stays_in_range 0
     [{ clk := ReadSys.got 1 49, dt := ReadSys.got 1 48, duty := WriteSys.wrote 6 }]
     { position := 5, prev_clk := 1 } (by decide)⟩

/-- C2: for a position in `[0, 180]`, a tick with two successful reads that is a
rising clock edge (`prev_clk = 0`, clock read 1) gives, with data 0, the position
plus 5 unless the position is 180, which stays 180, and with data 1 the position
minus 5 unless the position is 0, which stays 0. -/
theorem rising_edge_moves_by_five (s : LoopState) (io : TickSys)
    (h0 : 0 ≤ s.position) (h180 : s.position ≤ 180) (hprev : s.prev_clk = 0)
    (hclk : read_from_file GPIO23_VAL io.clk = 1)
    (hdt : read_from_file GPIO24_VAL io.dt = 0 ∨ read_from_file GPIO24_VAL io.dt = 1) :
    (read_from_file GPIO24_VAL io.dt = 0 →
      (iteration s io).1.position = if s.position = 180 then 180 else s.position + 5) ∧
    (read_from_file GPIO24_VAL io.dt = 1 →
      (iteration s io).1.position = if s.position = 0 then 0 else s.position - 5) := by
  rw [iteration_position s io (by omega) (by omega), hclk, hprev]
  have he : rising_edge 0 1 = true := by decide
  simp only [step, he, if_true, turn]
  constructor
  · intro hd
    rw [hd]
    simp only [if_true]
    by_cases h : s.position = 180
    · simp [h]
    · have hlt : s.position < 180 := by omega
      simp only [hlt, h, if_true, if_false]
      exact wrap32_of_range _ (by omega) (by omega)
  · intro hd
    rw [hd]
    have h10 : ¬ ((1 : Int) = 0) := by decide
    simp only [h10, if_false]
    by_cases h : s.position = 0
    · simp [h]
    · have hgt : s.position > 0 := by omega
      simp only [hgt, h, if_true, if_false]
      exact wrap32_of_range _ (by omega) (by omega)

theorem rising_edge_moves_by_five_witness :
    (iteration { position := 175, prev_clk := 0 }
        { clk := ReadSys.got 1 49, dt := ReadSys.got 1 48, duty := WriteSys.wrote 7 }).1.position
      = 180 ∧
    (iteration { position := 175, prev_clk := 0 }
        { clk := ReadSys.got 1 49, dt := ReadSys.got 1 49, duty := WriteSys.wrote 7 }).1.position
      = 170 :=
  ⟨(rising_edge_moves_by_five { position := 175, prev_clk := 0 }
      { clk := ReadSys.got 1 49, dt := ReadSys.got 1 48, duty := WriteSys.wrote 7 }
      (by decide) (by decide) rfl (by decide) (by decide)).1 (by decide),
   (rising_edge_moves_by_five { position := 175, prev_clk := 0 }
      { clk := ReadSys.got 1 49, dt := ReadSys.got 1 49, duty := WriteSys.wrote 7 }
      (by decide) (by decide) rfl (by decide) (by decide)).2 (by decide)⟩

/-- C3: for every position and every data sample, a tick with two successful
reads whose clock is a falling edge (`prev_clk = 1`, clock read 0) or is
unchanged (`prev_clk` equal to the clock read) leaves the position as it was. -/
theorem no_rising_edge_keeps_position (s : LoopState) (io : TickSys)
    (hclk : read_from_file GPIO23_VAL io.clk = 0 ∨ read_from_file GPIO23_VAL io.clk = 1)
    (hdt : read_from_file GPIO24_VAL io.dt = 0 ∨ read_from_file GPIO24_VAL io.dt = 1)
    (hno : (s.prev_clk = 1 ∧ read_from_file GPIO23_VAL io.clk = 0) ∨
      s.prev_clk = read_from_file GPIO23_VAL io.clk) :
    (iteration s io).1.position = s.position := by
  rw [iteration_position s io (by omega) (by omega)]
  have he : rising_edge s.prev_clk (read_from_file GPIO23_VAL io.clk) = false := by
    simp only [rising_edge, Bool.and_eq_false_imp, bne_iff_ne, ne_eq, beq_eq_false_iff_ne]
    omega
  simp [step, he]

theorem no_rising_edge_keeps_position_witness :
    (iteration { position := 90, prev_clk := 1 }
        { clk := ReadSys.got 1 48, dt := ReadSys.got 1 48, duty := WriteSys.wrote 7 }).1.position
      = 90 :=
  no_rising_edge_keeps_position { position := 90, prev_clk := 1 }
    { clk := ReadSys.got 1 48, dt := ReadSys.got 1 48, duty := WriteSys.wrote 7 }
    (by decide) (by decide) (by decide)

/-- C4: the duty cycle of position 0 is 500000, that of position 180 is 2500000,
and the duty cycle is non-decreasing in the position: for all positions `p ≤ q`
between -1073 and 1073, the range on which line 101 is evaluated without signed
overflow and which contains every position `0 .. 180`, the duty cycle of `p` is
at most that of `q`. -/
theorem duty_cycle_monotone (p q : Int) (hp : -1073 ≤ p) (hpq : p ≤ q) (hq : q ≤ 1073) :
    duty_cycle 0 = 500000 ∧ duty_cycle 180 = 2500000 ∧ duty_cycle p ≤ duty_cycle q := by
  refine ⟨by decide, by decide, ?_⟩
  by_cases hp0 : p < 0
  · rw [duty_cycle_of_neg p hp hp0]
    by_cases hq0 : q < 0
    · rw [duty_cycle_of_neg q (by omega) hq0]
    · rw [duty_cycle_of_nonneg q (by omega) hq]
      split <;> omega
  · rw [duty_cycle_of_nonneg p (by omega) (by omega), duty_cycle_of_nonneg q (by omega) hq]
    split <;> split <;> omega

theorem duty_cycle_monotone_witness :
    duty_cycle 0 = 500000 ∧ duty_cycle 180 = 2500000 ∧ duty_cycle 90 ≤ duty_cycle 95 :=
  duty_cycle_monotone 90 95 (by decide) (by decide) (by decide)

/-- C5: for a position in `[0, 180]` the product `position * 2000000` fits a
32-bit `int`, the formula evaluated in 32-bit arithmetic is
`500000 + position * 2000000 / 180` with truncating division, it already lies
in `[500000, 2500000]`, and the two clamps leave it as it is. -/
theorem clamp_is_identity_on_range (p : Int) (h0 : 0 ≤ p) (h180 : p ≤ 180) :
    (-2147483648 ≤ p * 2000000 ∧ p * 2000000 < 2147483648) ∧
    duty_formula p = 500000 + (p * 2000000).tdiv 180 ∧
    500000 ≤ duty_formula p ∧ duty_formula p ≤ 2500000 ∧
    duty_cycle p = duty_formula p := by
  have hf := duty_formula_of_nonneg p h0 (by omega)
  have hc := duty_cycle_of_nonneg p h0 (by omega)
  have hle : ¬ (500000 + p * 2000000 / 180 > 2500000) := by omega
  refine ⟨by omega, ?_, by omega, by omega, ?_⟩
  · rw [hf, Int.tdiv_eq_ediv (by omega) (by decide)]
  · rw [hc, hf]; simp only [hle, if_false]

theorem clamp_is_identity_on_range_witness :
    (-2147483648 ≤ (45 : Int) * 2000000 ∧ (45 : Int) * 2000000 < 2147483648) ∧
    duty_formula 45 = 500000 + ((45 : Int) * 2000000).tdiv 180 ∧
    500000 ≤ duty_formula 45 ∧ duty_formula 45 ≤ 2500000 ∧
    duty_cycle 45 = duty_formula 45 :=
  clamp_is_identity_on_range 45 (by decide) (by decide)

/-- C6: on a tick where the clock read or the data read returns -1 the
iteration leaves position and `prev_clk` as they were and makes no write, and
the loop goes on with the remaining ticks from the unchanged state. -/
theorem failed_read_skips_tick (s : LoopState) (io : TickSys) (rest : List TickSys)
    (h : read_from_file GPIO23_VAL io.clk = -1 ∨ read_from_file GPIO24_VAL io.dt = -1) :
    iteration s io = (s, []) ∧ run s (io :: rest) = run s rest ∧
      states s (io :: rest) = s :: states s rest := by
  have hf : iteration s io = (s, []) := iteration_failed s io (by omega)
  refine ⟨hf, ?_, ?_⟩
  · simp [run, hf]
  · simp [states, hf]

theorem failed_read_skips_tick_witness :
    iteration { position := 45, prev_clk := 0 }
        { clk := ReadSys.got 1 49, dt := ReadSys.openFail, duty := WriteSys.wrote 6 }
      = ({ position := 45, prev_clk := 0 }, []) ∧
    run { position := 45, prev_clk := 0 }
        [{ clk := ReadSys.got 1 49, dt := ReadSys.openFail, duty := WriteSys.wrote 6 }]
      = run { position := 45, prev_clk := 0 } [] ∧
    states { position := 45, prev_clk := 0 }
        [{ clk := ReadSys.got 1 49, dt := ReadSys.openFail, duty := WriteSys.wrote 6 }]
      = { position := 45, prev_clk := 0 } :: states { position := 45, prev_clk := 0 } [] :=
  failed_read_skips_tick { position := 45, prev_clk := 0 }
    { clk := ReadSys.got 1 49, dt := ReadSys.openFail, duty := WriteSys.wrote 6 } []
    (by decide)

/-- C7, the claim refuted: the initial read of the clock line fails (`open`
fails, result -1), `main` starts with `prev_clk = 0`, and a first tick that reads
clock 1 and data 0 is taken as a rising edge: the position moves to 5 and the
duty cycle is written, although the clock line was never read Low. -/
theorem failed_initial_read_counts_as_low :
    read_from_file GPIO23_VAL ReadSys.openFail = -1 ∧
    (initial_state ReadSys.openFail).prev_clk = 0 ∧
    iteration (initial_state ReadSys.openFail)
        { clk := ReadSys.got 1 49, dt := ReadSys.got 1 48, duty := WriteSys.wrote 6 }
      = ({ position := 5, prev_clk := 1 },
          [{ path := "/sys/class/pwm/pwmchip0/pwm0/duty_cycle", value := "555555",
             result := 0 }]) := by
  decide

/-- C7, amended: `main` starts the loop with position 0 and with `prev_clk` equal
to the initial read of the clock line when that read succeeds and to 0 when it
fails; the first tick writes a duty cycle (is taken as a rising edge) exactly
when the initial read returned 0 or failed, the tick reads clock 1 and its data
read succeeds. -/
theorem first_tick_edge_iff (r0 : ReadSys) (io : TickSys) :
    (initial_state r0).position = 0 ∧
    (initial_state r0).prev_clk =
      (if read_from_file GPIO23_VAL r0 = -1 then 0 else read_from_file GPIO23_VAL r0) ∧
    ((iteration (initial_state r0) io).2 ≠ [] ↔
      (read_from_file GPIO23_VAL r0 = 0 ∨ read_from_file GPIO23_VAL r0 = -1) ∧
        read_from_file GPIO23_VAL io.clk = 1 ∧ 0 ≤ read_from_file GPIO24_VAL io.dt) := by
  have hr := read_from_file_cases GPIO23_VAL r0
  have hc := read_from_file_cases GPIO23_VAL io.clk
  have hd := read_from_file_cases GPIO24_VAL io.dt
  have hprev : (initial_state r0).prev_clk =
      (if read_from_file GPIO23_VAL r0 = -1 then 0 else read_from_file GPIO23_VAL r0) := by
    simp only [initial_state]
    split_ifs <;> omega
  refine ⟨rfl, hprev, ?_⟩
  unfold iteration
  rw [hprev]
  rcases hr with hr | hr | hr <;> rcases hc with hc | hc | hc <;>
    rcases hd with hd | hd | hd <;> simp [hr, hc, hd, rising_edge]

/-- C8: on a tick with two successful reads that is a rising clock edge
(`prev_clk = 0`, clock read 1) the iteration makes exactly one write: to the
duty cycle file, of the decimal text of the duty cycle of the position after
the update, whatever the position was before (also 180 with data 0 and 0 with
data 1); the state after the tick (the updated position and `prev_clk = 1`) is
the same for every outcome of that write, and the loop goes on with the
remaining ticks. -/
theorem rising_edge_writes_duty_once (s : LoopState) (io : TickSys) (rest : List TickSys)
    (hprev : s.prev_clk = 0) (hclk : read_from_file GPIO23_VAL io.clk = 1)
    (hdt : read_from_file GPIO24_VAL io.dt = 0 ∨ read_from_file GPIO24_VAL io.dt = 1) :
    (iteration s io).2 =
      [{ path := "/sys/class/pwm/pwmchip0/pwm0/duty_cycle",
         value := toString (duty_cycle (step 0 1 (read_from_file GPIO24_VAL io.dt) s.position)),
         result := write_to_file "/sys/class/pwm/pwmchip0/pwm0/duty_cycle"
           (toString (duty_cycle (step 0 1 (read_from_file GPIO24_VAL io.dt) s.position)))
           io.duty }] ∧
    (∀ w : WriteSys, (iteration s { io with duty := w }).1 =
      { position := step 0 1 (read_from_file GPIO24_VAL io.dt) s.position, prev_clk := 1 }) ∧
    run s (io :: rest) =
      ((run { position := step 0 1 (read_from_file GPIO24_VAL io.dt) s.position,
              prev_clk := 1 } rest).1,
        { path := "/sys/class/pwm/pwmchip0/pwm0/duty_cycle",
          value := toString (duty_cycle (step 0 1 (read_from_file GPIO24_VAL io.dt) s.position)),
          result := write_to_file "/sys/class/pwm/pwmchip0/pwm0/duty_cycle"
            (toString (duty_cycle (step 0 1 (read_from_file GPIO24_VAL io.dt) s.position)))
            io.duty } ::
          (run { position := step 0 1 (read_from_file GPIO24_VAL io.dt) s.position,
                 prev_clk := 1 } rest).2) := by
  have he01 : rising_edge 0 1 = true := by decide
  have hst : step 0 1 (read_from_file GPIO24_VAL io.dt) s.position =
      turn (read_from_file GPIO24_VAL io.dt) s.position := by
    simp only [step, he01, if_true]
  have hit : ∀ w : WriteSys, iteration s { io with duty := w } =
      ({ position := step 0 1 (read_from_file GPIO24_VAL io.dt) s.position, prev_clk := 1 },
        [{ path := "/sys/class/pwm/pwmchip0/pwm0/duty_cycle",
           value := toString
             (duty_cycle (step 0 1 (read_from_file GPIO24_VAL io.dt) s.position)),
           result := write_to_file "/sys/class/pwm/pwmchip0/pwm0/duty_cycle"
             (toString (duty_cycle (step 0 1 (read_from_file GPIO24_VAL io.dt) s.position)))
             w }]) := by
    intro w
    have hok1 : ¬ ((1 : Int) < 0 ∨ read_from_file GPIO24_VAL io.dt < 0) := by omega
    have he1 : rising_edge s.prev_clk 1 = true := by rw [hprev]; decide
    unfold iteration
    simp only [hclk, hok1, he1, hst, if_true, if_false]
    rfl
  have hio : iteration s io = iteration s { io with duty := io.duty } := rfl
  refine ⟨?_, ?_, ?_⟩
  · rw [hio, hit io.duty]
  · intro w
    rw [hit w]
  · simp only [run]
    rw [hio, hit io.duty]
    rfl

theorem rising_edge_writes_duty_once_witness :
    (iteration { position := 180, prev_clk := 0 }
        { clk := ReadSys.got 1 49, dt := ReadSys.got 1 48, duty := WriteSys.openFail }).2 =
      [{ path := "/sys/class/pwm/pwmchip0/pwm0/duty_cycle", value := "2500000",
         result := -1 }] ∧
    (iteration { position := 180, prev_clk := 0 }
        { clk := ReadSys.got 1 49, dt := ReadSys.got 1 48, duty := WriteSys.wrote 7 }).1 =
      { position := 180, prev_clk := 1 } :=
  ⟨(rising_edge_writes_duty_once { position := 180, prev_clk := 0 }
      { clk := ReadSys.got 1 49, dt := ReadSys.got 1 48, duty := WriteSys.openFail } []
      rfl (by decide) (by decide)).1.trans (by decide),
   ((rising_edge_writes_duty_once { position := 180, prev_clk := 0 }
      { clk := ReadSys.got 1 49, dt := ReadSys.got 1 48, duty := WriteSys.openFail } []
      rfl (by decide) (by decide)).2.1 (WriteSys.wrote 7)).trans (by decide)⟩

/-- C9, the code evaluated: for every outcome of its four writes `cleanup`
writes "0" to the PWM enable file, "0" to the PWM `export` file, "23" and "24"
to the GPIO `unexport` file, and exits with status 0.  The second write is the
write `main` makes at start-up to claim the PWM channel; no write of `cleanup`
goes to the PWM `unexport` file. -/
theorem cleanup_writes (io : CleanupSys) :
    (cleanup io).1.map (fun e => (e.path, e.value)) =
      [("/sys/class/pwm/pwmchip0/pwm0/enable", "0"),
       ("/sys/class/pwm/pwmchip0/export", "0"),
       ("/sys/class/gpio/unexport", "23"),
       ("/sys/class/gpio/unexport", "24")] ∧
    (cleanup io).2 = 0 ∧
    (∀ e ∈ (cleanup io).1, e.path ≠ "/sys/class/pwm/pwmchip0/unexport") ∧
    ((startup { e23 := WriteSys.wrote 2, e24 := WriteSys.wrote 2, d23 := WriteSys.wrote 2,
                d24 := WriteSys.wrote 2, pexp := WriteSys.wrote 1, pper := WriteSys.wrote 8,
                pen := WriteSys.wrote 1 }).1.map (fun e => (e.path, e.value))).get? 4 =
      ((cleanup io).1.map (fun e => (e.path, e.value))).get? 1 := by
  refine ⟨rfl, rfl, ?_, ?_⟩
  · intro e he
    simp only [cleanup, List.mem_cons, List.mem_singleton, List.not_mem_nil, or_false] at he
    rcases he with he | he | he | he <;> rw [he]
    · show PWM_ENABLE ≠ "/sys/class/pwm/pwmchip0/unexport"; decide
    · show PWM_EXPORT ≠ "/sys/class/pwm/pwmchip0/unexport"; decide
    · show GPIO_UNEXPORT ≠ "/sys/class/pwm/pwmchip0/unexport"; decide
    · show GPIO_UNEXPORT ≠ "/sys/class/pwm/pwmchip0/unexport"; decide
  · have hc : ((cleanup io).1.map (fun e => (e.path, e.value))).get? 1 =
        some ("/sys/class/pwm/pwmchip0/export", "0") := rfl
    rw [hc]
    decide

/-- C10, the claim refuted: position 177 lies in `[0, 180]`, and a rising edge
with data 0 takes it to 182. -/
theorem step_leaves_range_at_177 :
    (0 : Int) ≤ 177 ∧ (177 : Int) ≤ 180 ∧ step 0 1 0 177 = 182 ∧ ¬ step 0 1 0 177 ≤ 180 := by
  decide

/-- C10, amended: for every position in `[0, 180]` other than 1, 2, 3, 4 and 176,
177, 178, 179 (so for every multiple of 5) and all values of `prev_clk`, `clk`
and `dt`, the result of `step` lies in `[0, 180]`: at 180 an increment and at 0 a
decrement leave the position as it is. -/
theorem step_preserves_range (prev_clk clk dt p : Int)
    (h0 : 0 ≤ p) (h180 : p ≤ 180)
    (hlow : ¬ (1 ≤ p ∧ p ≤ 4)) (hhigh : ¬ (176 ≤ p ∧ p ≤ 179)) :
    0 ≤ step prev_clk clk dt p ∧ step prev_clk clk dt p ≤ 180 := by
  unfold step
  split
  · unfold turn
    split
    · split
      · rw [wrap32_of_range (p + 5) (by omega) (by omega)]; omega
      · omega
    · split
      · rw [wrap32_of_range (p - 5) (by omega) (by omega)]; omega
      · omega
  · exact ⟨h0, h180⟩

theorem step_preserves_range_witness :
    (0 ≤ step 0 1 0 173 ∧ step 0 1 0 173 ≤ 180) ∧
    (0 ≤ step 0 1 0 180 ∧ step 0 1 0 180 ≤ 180) ∧
    (0 ≤ step 0 1 1 0 ∧ step 0 1 1 0 ≤ 180) :=
  ⟨step_preserves_range 0 1 0 173 (by decide) (by decide) (by decide) (by decide),
   step_preserves_range 0 1 0 180 (by decide) (by decide) (by decide) (by decide),
   step_preserves_range 0 1 1 0 (by decide) (by decide) (by decide) (by decide)⟩

end ServoControl
